import Mathlib

/-!
Shallow embedding of `backend/backend.py` (therapy chatbot backend).

The backend keeps three in-process dictionaries inside `ConnectionManager`:
`chat_histories` (GPT-4 replay histories), `gemini_chats` (Gemini chat
handles), and `client_models` (the provider currently selected for each
client id).  We model the dictionaries as association lists over `String`
keys, the Gemini chat handle as the list of messages that have been sent to
it, and the two provider network calls as oracle functions supplied per
operation (`none` models a raised exception, `some text` a successful
reply).
-/

set_option maxRecDepth 8192

deriving instance DecidableEq for Except

namespace TherapyBot

/-! ### Association-list maps (Python `dict` with string keys) -/

def lookupA {α : Type} (l : List (String × α)) (k : String) : Option α :=
  match l with
  | [] => none
  | p :: t => if p.1 = k then some p.2 else lookupA t k

def eraseA {α : Type} (l : List (String × α)) (k : String) : List (String × α) :=
  l.filter (fun p => p.1 ≠ k)

def insertA {α : Type} (l : List (String × α)) (k : String) (v : α) : List (String × α) :=
  eraseA l k ++ [(k, v)]

theorem lookupA_append {α : Type} (l₁ l₂ : List (String × α)) (k : String) :
    lookupA (l₁ ++ l₂) k =
      match lookupA l₁ k with
      | some v => some v
      | none => lookupA l₂ k := by
  induction l₁ with
  | nil => simp [lookupA]
  | cons p t ih =>
    by_cases h : p.1 = k <;> simp [lookupA, h, ih]

theorem lookupA_eraseA_self {α : Type} (l : List (String × α)) (k : String) :
    lookupA (eraseA l k) k = none := by
  induction l with
  | nil => simp [lookupA, eraseA]
  | cons p t ih =>
    by_cases h : p.1 = k <;> simp [eraseA, List.filter, h, lookupA] <;>
      simpa [eraseA] using ih

theorem lookupA_eraseA_ne {α : Type} (l : List (String × α)) (k k' : String)
    (h : k' ≠ k) : lookupA (eraseA l k) k' = lookupA l k' := by
  have hkk : ¬ k = k' := fun hh => h hh.symm
  induction l with
  | nil => rfl
  | cons p t ih =>
    by_cases hpk : p.1 = k
    · have hpk' : ¬ p.1 = k' := fun hh => h (by rw [← hh, hpk])
      simp [eraseA, List.filter, hpk, lookupA, hpk', hkk, h]
      simpa [eraseA] using ih
    · by_cases hpk' : p.1 = k'
      · simp [eraseA, List.filter, hpk, lookupA, hpk', hkk, h]
      · simp [eraseA, List.filter, hpk, lookupA, hpk', hkk, h]
        simpa [eraseA] using ih

theorem lookupA_insertA_self {α : Type} (l : List (String × α)) (k : String) (v : α) :
    lookupA (insertA l k v) k = some v := by
  simp [insertA, lookupA_append, lookupA_eraseA_self, lookupA]

theorem lookupA_insertA_ne {α : Type} (l : List (String × α)) (k k' : String) (v : α)
    (h : k' ≠ k) : lookupA (insertA l k v) k' = lookupA l k' := by
  have hne : k ≠ k' := fun hh => h hh.symm
  simp [insertA, lookupA_append, lookupA_eraseA_ne l k k' h, lookupA, hne]
  cases lookupA l k' <;> simp

theorem eraseA_idem {α : Type} (l : List (String × α)) (k : String) :
    eraseA (eraseA l k) k = eraseA l k := by
  induction l with
  | nil => rfl
  | cons p t ih =>
    by_cases h : p.1 = k
    · simp [eraseA, List.filter, h]
    · simp [eraseA, List.filter, h]

/-! ### Data model -/

/-- `AIModel` enum from the source: allowed providers. -/
inductive AIModel where
  | gpt4
  | gemini
deriving DecidableEq, Repr

/-- One chat turn: a role tag (`"system"`, `"user"`, `"assistant"`) and text. -/
structure Turn where
  role : String
  content : String
deriving DecidableEq, Repr

/-- The fixed persona prompt (`SYSTEM_PROMPT` in the source). -/
def SYSTEM_PROMPT : String :=
  "You are an empathetic and professional therapist.\nYour responses should be:\n- Compassionate and understanding\n- Non-judgmental and supportive\n- Professional yet warm\n- Using reflective listening\n- Asking open-ended questions"

/-- The system turn inserted at session creation and on switch-to-GPT4. -/
def systemTurn : Turn := ⟨"system", SYSTEM_PROMPT⟩

/-- A Gemini chat handle, modelled by the messages sent into it.  The real
SDK object keeps its conversation server-side/in the object; we track the
sent messages so that freshness and reuse of handles are observable.  The
SDK appends to the handle's state only when `send_message` succeeds, so a
failed send leaves the handle unchanged. -/
structure GeminiChat where
  sent : List String
deriving DecidableEq, Repr

def GeminiChat.push (c : GeminiChat) (m : String) : GeminiChat := ⟨c.sent ++ [m]⟩

/-- `gemini_model.start_chat(history=[])` followed by
`chat.send_message(SYSTEM_PROMPT)`: a fresh handle seeded with the persona
prompt.  Used both in `create_session` and in `switch_model`. -/
def freshGeminiChat : GeminiChat := ⟨[SYSTEM_PROMPT]⟩

/-- The three dictionaries owned by `ConnectionManager`. -/
structure ConnectionManager where
  chat_histories : List (String × List Turn)
  gemini_chats : List (String × GeminiChat)
  client_models : List (String × AIModel)
deriving DecidableEq, Repr

/-- The manager state at process start: all three dictionaries empty. -/
def ConnectionManager.empty : ConnectionManager := ⟨[], [], []⟩

/-- Error kinds surfaced over HTTP by the backend. -/
inductive ErrKind where
  | badRequest
  | internal
deriving DecidableEq, Repr

/-- HTTP status code of each error kind. -/
def ErrKind.status : ErrKind → Nat
  | .badRequest => 400
  | .internal => 500

/-- Python `str.strip()`: remove leading and trailing whitespace.  Defined
by structural recursion over the character list so that it evaluates. -/
def pyStrip (s : String) : String :=
  String.mk (((s.data.dropWhile Char.isWhitespace).reverse.dropWhile
    Char.isWhitespace).reverse)

/-! ### Operations of `ConnectionManager` -/

/-- `create_session`: records the model for the (freshly generated uuid4)
`client_id`, then seeds provider state: a seeded Gemini handle for
`gemini`, a `[system turn]` history for `gpt4`.  The uuid4 generation is
modelled by passing the generated id in as `client_id`.

The Gemini seeding `chat.send_message(SYSTEM_PROMPT)` is a fallible network
call; `seedOk` is its outcome.  It runs after `client_models` has been
written, so on failure the exception escapes `/start` as a 500 while the
new id stays recorded as `gemini` with no handle stored.  The `gpt4` branch
makes no network call and always succeeds. -/
def create_session (cm : ConnectionManager) (client_id : String) (model : AIModel)
    (seedOk : Bool) : ConnectionManager × Except ErrKind (String × AIModel) :=
  let cm1 := { cm with client_models := insertA cm.client_models client_id model }
  match model with
  | AIModel.gemini =>
      if seedOk then
        ({ cm1 with gemini_chats := insertA cm1.gemini_chats client_id freshGeminiChat },
         Except.ok (client_id, model))
      else
        (cm1, Except.error ErrKind.internal)
  | AIModel.gpt4 =>
      ({ cm1 with chat_histories := insertA cm1.chat_histories client_id [systemTurn] },
       Except.ok (client_id, model))

/-- `get_history`: the stored history, or a fresh default `[system turn]`
list when the id has none.  In Python the stored case returns the live list
object. -/
def get_history (cm : ConnectionManager) (client_id : String) : List Turn :=
  (lookupA cm.chat_histories client_id).getD [systemTurn]

/-- `add_message`: appends a turn to the stored history if the id has one,
otherwise does nothing. -/
def add_message (cm : ConnectionManager) (client_id role content : String) :
    ConnectionManager :=
  match lookupA cm.chat_histories client_id with
  | some h =>
      { cm with chat_histories :=
          insertA cm.chat_histories client_id (h ++ [⟨role, content⟩]) }
  | none => cm

/-- `get_ai_response`: looks up the model, defaulting to `gpt4` when the id
is unknown.  `azure` and `gem` are the provider-call oracles; `none` models
a raised exception.

Gemini path: a missing handle raises `HTTPException(400)` inside the `try`
block, which the blanket `except Exception` clause catches and re-raises as
a 500, so the surfaced error is `internal`.

GPT-4 path: `messages.append(...)` mutates the list returned by
`get_history` in place, so the appended user turn is persisted exactly when
the id has a stored history — and it is persisted *before* the provider
call, hence it remains on provider failure.  On success the assistant turn
is appended via `add_message` and the provider text is `.strip()`ped. -/
def get_ai_response (cm : ConnectionManager) (client_id message : String)
    (azure : List Turn → Option String) (gem : GeminiChat → String → Option String) :
    ConnectionManager × Except ErrKind (String × AIModel) :=
  match (lookupA cm.client_models client_id).getD AIModel.gpt4 with
  | AIModel.gemini =>
      match lookupA cm.gemini_chats client_id with
      | none => (cm, Except.error ErrKind.internal)
      | some chat =>
          match gem chat message with
          | none => (cm, Except.error ErrKind.internal)
          | some text =>
              ({ cm with gemini_chats :=
                   insertA cm.gemini_chats client_id (chat.push message) },
               Except.ok (text, AIModel.gemini))
  | AIModel.gpt4 =>
      let stored := lookupA cm.chat_histories client_id
      let messages := get_history cm client_id ++ [Turn.mk "user" message]
      let cm1 :=
        match stored with
        | some _ =>
            { cm with chat_histories := insertA cm.chat_histories client_id messages }
        | none => cm
      match azure messages with
      | none => (cm1, Except.error ErrKind.internal)
      | some content =>
          let response := pyStrip content
          (add_message cm1 client_id "assistant" response,
           Except.ok (response, AIModel.gpt4))

/-- The `POST /message` endpoint body: strips the incoming message text and
delegates to `get_ai_response`; an `HTTPException` raised inside is
re-raised unchanged. -/
def get_message (cm : ConnectionManager) (client_id message : String)
    (azure : List Turn → Option String) (gem : GeminiChat → String → Option String) :
    ConnectionManager × Except ErrKind (String × AIModel) :=
  get_ai_response cm client_id (pyStrip message) azure gem

/-- `switch_model`: 400 for an unknown id; otherwise records the new model
and reinitializes provider state — a seeded fresh Gemini handle (dropping
any GPT-4 history) for `gemini`, a fresh `[system turn]` history (dropping
any Gemini handle) for `gpt4`.

As in `create_session`, the Gemini seeding `chat.send_message(SYSTEM_PROMPT)`
is fallible (`seedOk`) and runs after `client_models` has been reassigned
but before the handle store and the `chat_histories.pop`: on failure the
endpoint surfaces a 500 with the old history/handle still in place and the
recorded model already set to `gemini`.  The `gpt4` branch makes no network
call and always succeeds. -/
def switch_model (cm : ConnectionManager) (client_id : String) (new_model : AIModel)
    (seedOk : Bool) : ConnectionManager × Except ErrKind AIModel :=
  match lookupA cm.client_models client_id with
  | none => (cm, Except.error ErrKind.badRequest)
  | some _ =>
      let cm1 := { cm with client_models := insertA cm.client_models client_id new_model }
      match new_model with
      | AIModel.gemini =>
          if seedOk then
            ({ cm1 with
                gemini_chats := insertA cm1.gemini_chats client_id freshGeminiChat,
                chat_histories := eraseA cm1.chat_histories client_id },
             Except.ok new_model)
          else
            (cm1, Except.error ErrKind.internal)
      | AIModel.gpt4 =>
          ({ cm1 with
              chat_histories := insertA cm1.chat_histories client_id [systemTurn],
              gemini_chats := eraseA cm1.gemini_chats client_id },
           Except.ok new_model)

/-- `end_session`: pops the id from all three dictionaries, with a default,
so it never raises. -/
def end_session (cm : ConnectionManager) (client_id : String) : ConnectionManager :=
  { chat_histories := eraseA cm.chat_histories client_id,
    gemini_chats := eraseA cm.gemini_chats client_id,
    client_models := eraseA cm.client_models client_id }

/-- States reachable from process start by the HTTP-exposed operations.
The `create` step carries the uuid4-freshness assumption (a colliding uuid4
is treated as unreachable, as the spec does). -/
inductive Reachable : ConnectionManager → Prop where
  | init : Reachable ConnectionManager.empty
  | create (cm : ConnectionManager) (id : String) (m : AIModel) (seedOk : Bool) :
      Reachable cm → lookupA cm.client_models id = none →
      Reachable (create_session cm id m seedOk).1
  | send (cm : ConnectionManager) (id msg : String)
      (az : List Turn → Option String) (gm : GeminiChat → String → Option String) :
      Reachable cm → Reachable (get_message cm id msg az gm).1
  | switch (cm : ConnectionManager) (id : String) (m : AIModel) (seedOk : Bool) :
      Reachable cm → Reachable (switch_model cm id m seedOk).1
  | ended (cm : ConnectionManager) (id : String) :
      Reachable cm → Reachable (end_session cm id)

/-! ### Invariants -/

/-- A well-formed replay history: exactly one leading `system` turn carrying
the persona prompt, and no `system` turn afterwards. -/
def HistWF (h : List Turn) : Prop :=
  ∃ rest, h = systemTurn :: rest ∧ ∀ t ∈ rest, t.role ≠ "system"

theorem histWF_append (h : List Turn) (r c : String) (hWF : HistWF h)
    (hr : r ≠ "system") : HistWF (h ++ [Turn.mk r c]) := by
  obtain ⟨rest, rfl, hrest⟩ := hWF
  refine ⟨rest ++ [Turn.mk r c], by simp, ?_⟩
  intro t ht
  rcases List.mem_append.1 ht with h1 | h2
  · exact hrest t h1
  · simp at h2
    subst h2
    exact hr

/-- Decidable form of `HistWF`. -/
def historyWellFormed (h : List Turn) : Bool :=
  decide (h.head? = some systemTurn) && h.tail.all (fun t => !(decide (t.role = "system")))

theorem histWF_bool {h : List Turn} (hWF : HistWF h) : historyWellFormed h = true := by
  obtain ⟨rest, rfl, hrest⟩ := hWF
  simp [historyWellFormed, List.all_eq_true]
  exact hrest

/-- Every stored replay history in the map is well-formed. -/
def HistMapWF (l : List (String × List Turn)) : Prop :=
  ∀ id h, lookupA l id = some h → HistWF h

theorem histMapWF_insert {l : List (String × List Turn)} (hInv : HistMapWF l)
    (id : String) (h : List Turn) (hWF : HistWF h) :
    HistMapWF (insertA l id h) := by
  intro id' h' hl
  by_cases hid : id' = id
  · subst hid
    rw [lookupA_insertA_self] at hl
    cases hl
    exact hWF
  · rw [lookupA_insertA_ne _ _ _ _ hid] at hl
    exact hInv id' h' hl

theorem histMapWF_erase {l : List (String × List Turn)} (hInv : HistMapWF l)
    (id : String) : HistMapWF (eraseA l id) := by
  intro id' h' hl
  by_cases hid : id' = id
  · subst hid
    rw [lookupA_eraseA_self] at hl
    cases hl
  · rw [lookupA_eraseA_ne _ _ _ hid] at hl
    exact hInv id' h' hl

/-- Store-shape invariant that actually holds of the program, robust to
gemini seeding failures: a stored history or handle belongs to a recorded
id, a handle only exists under a recorded gemini model, a recorded gpt4
model always has a stored history, and no id is in both provider maps at
once.  A failed gemini seeding can leave a gemini-recorded id with no
handle — possibly with a surviving history entry — so the stronger
"chat_histories iff gpt4, gemini_chats iff gemini" does not hold. -/
def StoreInvW (cm : ConnectionManager) : Prop := ∀ id,
  ((lookupA cm.chat_histories id).isSome = true →
    (lookupA cm.client_models id).isSome = true) ∧
  ((lookupA cm.gemini_chats id).isSome = true →
    lookupA cm.client_models id = some AIModel.gemini) ∧
  (lookupA cm.client_models id = some AIModel.gpt4 →
    (lookupA cm.chat_histories id).isSome = true) ∧
  ¬((lookupA cm.chat_histories id).isSome = true ∧
    (lookupA cm.gemini_chats id).isSome = true)

theorem storeInvW_unknown {cm : ConnectionManager} (hInv : StoreInvW cm) {id : String}
    (hm : lookupA cm.client_models id = none) :
    lookupA cm.chat_histories id = none ∧ lookupA cm.gemini_chats id = none := by
  obtain ⟨h1, h2, h3, h4⟩ := hInv id
  constructor
  · cases hcase : lookupA cm.chat_histories id with
    | none => rfl
    | some h =>
        have := h1 (by simp [hcase])
        rw [hm] at this
        simp at this
  · cases hcase : lookupA cm.gemini_chats id with
    | none => rfl
    | some c =>
        have := h2 (by simp [hcase])
        rw [hm] at this
        simp at this

theorem storeInvW_insert_hist {cm : ConnectionManager} (hInv : StoreInvW cm)
    (id : String) (h : List Turn)
    (hmem : (lookupA cm.chat_histories id).isSome = true) :
    StoreInvW { cm with chat_histories := insertA cm.chat_histories id h } := by
  intro id'
  obtain ⟨h1, h2, h3, h4⟩ := hInv id'
  by_cases hid : id' = id
  · subst hid
    exact ⟨fun _ => h1 hmem,
           h2,
           fun _ => by simp [lookupA_insertA_self],
           fun hco => h4 ⟨hmem, hco.2⟩⟩
  · simp only [lookupA_insertA_ne _ _ _ _ hid]
    exact ⟨h1, h2, h3, h4⟩

theorem storeInvW_insert_gem {cm : ConnectionManager} (hInv : StoreInvW cm)
    (id : String) (c : GeminiChat)
    (hmem : (lookupA cm.gemini_chats id).isSome = true) :
    StoreInvW { cm with gemini_chats := insertA cm.gemini_chats id c } := by
  intro id'
  obtain ⟨h1, h2, h3, h4⟩ := hInv id'
  by_cases hid : id' = id
  · subst hid
    exact ⟨h1,
           fun _ => h2 hmem,
           h3,
           fun hco => h4 ⟨hco.1, hmem⟩⟩
  · simp only [lookupA_insertA_ne _ _ _ _ hid]
    exact ⟨h1, h2, h3, h4⟩

/-! ### Characterization of `get_ai_response` by branch -/

theorem eraseA_append {α : Type} (l₁ l₂ : List (String × α)) (k : String) :
    eraseA (l₁ ++ l₂) k = eraseA l₁ k ++ eraseA l₂ k := by
  simp [eraseA]

theorem insertA_insertA {α : Type} (l : List (String × α)) (k : String) (v w : α) :
    insertA (insertA l k v) k w = insertA l k w := by
  simp [insertA, eraseA_append, eraseA_idem, eraseA, List.filter]

/-- GPT-4 path with no stored history (unknown id, gpt4-defaulted): the
default one-turn history is built, sent, and never stored. -/
theorem get_ai_response_nohist (cm : ConnectionManager) (id msg : String)
    (az : List Turn → Option String) (gm : GeminiChat → String → Option String)
    (hm : (lookupA cm.client_models id).getD AIModel.gpt4 = AIModel.gpt4)
    (hst : lookupA cm.chat_histories id = none) :
    get_ai_response cm id msg az gm =
      (cm, match az [systemTurn, Turn.mk "user" msg] with
           | none => Except.error ErrKind.internal
           | some content => Except.ok (pyStrip content, AIModel.gpt4)) := by
  cases haz : az [systemTurn, Turn.mk "user" msg] with
  | none => simp [get_ai_response, hm, get_history, hst, haz]
  | some content => simp [get_ai_response, hm, get_history, hst, haz, add_message]

/-- GPT-4 path with a stored history: the user turn is persisted before the
provider call; the assistant turn is appended only on success. -/
theorem get_ai_response_hist (cm : ConnectionManager) (id msg : String)
    (az : List Turn → Option String) (gm : GeminiChat → String → Option String)
    (h : List Turn)
    (hm : (lookupA cm.client_models id).getD AIModel.gpt4 = AIModel.gpt4)
    (hst : lookupA cm.chat_histories id = some h) :
    get_ai_response cm id msg az gm =
      match az (h ++ [Turn.mk "user" msg]) with
      | none =>
          ({ cm with chat_histories := insertA cm.chat_histories id (h ++ [Turn.mk "user" msg]) },
           Except.error ErrKind.internal)
      | some content =>
          ({ cm with chat_histories := insertA cm.chat_histories id (h ++ [Turn.mk "user" msg, Turn.mk "assistant" (pyStrip content)]) },
           Except.ok (pyStrip content, AIModel.gpt4)) := by
  cases haz : az (h ++ [Turn.mk "user" msg]) with
  | none => simp [get_ai_response, hm, get_history, hst, haz]
  | some content =>
      simp [get_ai_response, hm, get_history, hst, haz, add_message,
        lookupA_insertA_self, insertA_insertA]

/-- Gemini path with a stored handle. -/
theorem get_ai_response_gemini (cm : ConnectionManager) (id msg : String)
    (az : List Turn → Option String) (gm : GeminiChat → String → Option String)
    (chat : GeminiChat)
    (hm : lookupA cm.client_models id = some AIModel.gemini)
    (hgc : lookupA cm.gemini_chats id = some chat) :
    get_ai_response cm id msg az gm =
      match gm chat msg with
      | none => (cm, Except.error ErrKind.internal)
      | some text =>
          ({ cm with gemini_chats := insertA cm.gemini_chats id (chat.push msg) },
           Except.ok (text, AIModel.gemini)) := by
  cases hsend : gm chat msg with
  | none => simp [get_ai_response, hm, hgc, hsend]
  | some text => simp [get_ai_response, hm, hgc, hsend]

/-- Gemini path with a missing handle: the inner 400 is swallowed by the
blanket `except Exception` and surfaced as a 500. -/
theorem get_ai_response_gemini_nochat (cm : ConnectionManager) (id msg : String)
    (az : List Turn → Option String) (gm : GeminiChat → String → Option String)
    (hm : lookupA cm.client_models id = some AIModel.gemini)
    (hgc : lookupA cm.gemini_chats id = none) :
    get_ai_response cm id msg az gm = (cm, Except.error ErrKind.internal) := by
  simp [get_ai_response, hm, hgc]

/-! ### Preservation of the invariants by each operation -/

theorem storeInvW_empty : StoreInvW ConnectionManager.empty := by
  intro id
  simp [ConnectionManager.empty, lookupA]

theorem storeInvW_create {cm : ConnectionManager} (hInv : StoreInvW cm)
    (id : String) (m : AIModel) (seedOk : Bool)
    (hfresh : lookupA cm.client_models id = none) :
    StoreInvW (create_session cm id m seedOk).1 := by
  obtain ⟨hch, hgc⟩ := storeInvW_unknown hInv hfresh
  intro id'
  by_cases hid : id' = id
  · subst hid
    cases m with
    | gpt4 => simp [create_session, lookupA_insertA_self, hch, hgc]
    | gemini =>
        cases seedOk <;>
          simp [create_session, lookupA_insertA_self, hch, hgc]
  · obtain ⟨h1, h2, h3, h4⟩ := hInv id'
    cases m <;> cases seedOk <;>
      simp only [create_session, lookupA_insertA_ne _ _ _ _ hid, if_true, if_false,
        Bool.false_eq_true, ite_false, ite_true] <;>
      exact ⟨h1, h2, h3, h4⟩

theorem storeInvW_send {cm : ConnectionManager} (hInv : StoreInvW cm)
    (id msg : String) (az : List Turn → Option String)
    (gm : GeminiChat → String → Option String) :
    StoreInvW (get_ai_response cm id msg az gm).1 := by
  cases hm : lookupA cm.client_models id with
  | none =>
      obtain ⟨hch, _⟩ := storeInvW_unknown hInv hm
      rw [get_ai_response_nohist cm id msg az gm (by rw [hm]; rfl) hch]
      exact hInv
  | some m =>
    cases m with
    | gemini =>
        cases hgc : lookupA cm.gemini_chats id with
        | none =>
            rw [get_ai_response_gemini_nochat cm id msg az gm hm hgc]
            exact hInv
        | some chat =>
            rw [get_ai_response_gemini cm id msg az gm chat hm hgc]
            cases hsend : gm chat msg with
            | none => exact hInv
            | some t => exact storeInvW_insert_gem hInv id _ (by simp [hgc])
    | gpt4 =>
        cases hst : lookupA cm.chat_histories id with
        | none =>
            rw [get_ai_response_nohist cm id msg az gm (by rw [hm]; rfl) hst]
            exact hInv
        | some h =>
            rw [get_ai_response_hist cm id msg az gm h (by rw [hm]; rfl) hst]
            cases haz : az (h ++ [Turn.mk "user" msg]) with
            | none => exact storeInvW_insert_hist hInv id _ (by simp [hst])
            | some t => exact storeInvW_insert_hist hInv id _ (by simp [hst])

theorem storeInvW_switch {cm : ConnectionManager} (hInv : StoreInvW cm)
    (id : String) (m : AIModel) (seedOk : Bool) :
    StoreInvW (switch_model cm id m seedOk).1 := by
  cases hm : lookupA cm.client_models id with
  | none =>
      have : (switch_model cm id m seedOk).1 = cm := by simp [switch_model, hm]
      rw [this]
      exact hInv
  | some old =>
      intro id'
      obtain ⟨h1, h2, h3, h4⟩ := hInv id'
      by_cases hid : id' = id
      · subst hid
        cases m with
        | gpt4 =>
            simp [switch_model, hm, lookupA_insertA_self, lookupA_eraseA_self]
        | gemini =>
            cases seedOk with
            | true =>
                simp [switch_model, hm, lookupA_insertA_self, lookupA_eraseA_self]
            | false =>
                simp only [switch_model, hm, Bool.false_eq_true, ite_false]
                exact ⟨fun _ => by simp [lookupA_insertA_self],
                       fun _ => by simp [lookupA_insertA_self],
                       fun hgpt => by
                         rw [lookupA_insertA_self] at hgpt
                         simp at hgpt,
                       h4⟩
      · cases m <;> cases seedOk <;>
          simp only [switch_model, hm, lookupA_insertA_ne _ _ _ _ hid,
            lookupA_eraseA_ne _ _ _ hid, Bool.false_eq_true, ite_false, ite_true] <;>
          exact ⟨h1, h2, h3, h4⟩

theorem storeInvW_end {cm : ConnectionManager} (hInv : StoreInvW cm) (id : String) :
    StoreInvW (end_session cm id) := by
  intro id'
  obtain ⟨h1, h2, h3, h4⟩ := hInv id'
  by_cases hid : id' = id
  · subst hid
    simp [end_session, lookupA_eraseA_self]
  · simp only [end_session, lookupA_eraseA_ne _ _ _ hid]
    exact ⟨h1, h2, h3, h4⟩

theorem storeInvW_of_reachable {cm : ConnectionManager} (hre : Reachable cm) :
    StoreInvW cm := by
  induction hre with
  | init => exact storeInvW_empty
  | create cm id m seedOk hre hfresh ih => exact storeInvW_create ih id m seedOk hfresh
  | send cm id msg az gm hre ih => exact storeInvW_send ih id (pyStrip msg) az gm
  | switch cm id m seedOk hre ih => exact storeInvW_switch ih id m seedOk
  | ended cm id hre ih => exact storeInvW_end ih id

theorem histWF_system : HistWF [systemTurn] :=
  ⟨[], rfl, by simp⟩

theorem histWF_append₂ (h : List Turn) (c₁ c₂ : String) (hWF : HistWF h) :
    HistWF (h ++ [Turn.mk "user" c₁, Turn.mk "assistant" c₂]) := by
  have := histWF_append (h ++ [Turn.mk "user" c₁]) "assistant" c₂
    (histWF_append h "user" c₁ hWF (by decide)) (by decide)
  simpa using this

theorem histMapWF_create {cm : ConnectionManager}
    (hInv : HistMapWF cm.chat_histories) (id : String) (m : AIModel) (seedOk : Bool) :
    HistMapWF (create_session cm id m seedOk).1.chat_histories := by
  cases m with
  | gemini =>
      have : (create_session cm id AIModel.gemini seedOk).1.chat_histories =
          cm.chat_histories := by
        cases seedOk <;> simp [create_session]
      rw [this]
      exact hInv
  | gpt4 =>
      have : (create_session cm id AIModel.gpt4 seedOk).1.chat_histories =
          insertA cm.chat_histories id [systemTurn] := by
        simp [create_session]
      rw [this]
      exact histMapWF_insert hInv id _ histWF_system

theorem histMapWF_send {cm : ConnectionManager}
    (hInv : HistMapWF cm.chat_histories) (id msg : String)
    (az : List Turn → Option String) (gm : GeminiChat → String → Option String) :
    HistMapWF (get_ai_response cm id msg az gm).1.chat_histories := by
  cases hm : (lookupA cm.client_models id).getD AIModel.gpt4 with
  | gemini =>
      have hm' : lookupA cm.client_models id = some AIModel.gemini := by
        cases hcm : lookupA cm.client_models id with
        | none => rw [hcm] at hm; cases hm
        | some v => rw [hcm] at hm; simp at hm; rw [hm]
      cases hgc : lookupA cm.gemini_chats id with
      | none =>
          rw [get_ai_response_gemini_nochat cm id msg az gm hm' hgc]
          exact hInv
      | some chat =>
          rw [get_ai_response_gemini cm id msg az gm chat hm' hgc]
          cases hsend : gm chat msg with
          | none => exact hInv
          | some t => exact hInv
  | gpt4 =>
      cases hst : lookupA cm.chat_histories id with
      | none =>
          rw [get_ai_response_nohist cm id msg az gm hm hst]
          exact hInv
      | some h =>
          rw [get_ai_response_hist cm id msg az gm h hm hst]
          have hWF : HistWF h := hInv id h hst
          cases haz : az (h ++ [Turn.mk "user" msg]) with
          | none => exact histMapWF_insert hInv id _ (histWF_append h "user" msg hWF (by decide))
          | some t => exact histMapWF_insert hInv id _ (histWF_append₂ h msg (pyStrip t) hWF)

theorem histMapWF_switch {cm : ConnectionManager}
    (hInv : HistMapWF cm.chat_histories) (id : String) (m : AIModel) (seedOk : Bool) :
    HistMapWF (switch_model cm id m seedOk).1.chat_histories := by
  cases hm : lookupA cm.client_models id with
  | none =>
      have : (switch_model cm id m seedOk).1 = cm := by simp [switch_model, hm]
      rw [this]
      exact hInv
  | some old =>
      cases m with
      | gemini =>
          cases seedOk with
          | true =>
              have : (switch_model cm id AIModel.gemini true).1.chat_histories =
                  eraseA cm.chat_histories id := by simp [switch_model, hm]
              rw [this]
              exact histMapWF_erase hInv id
          | false =>
              have : (switch_model cm id AIModel.gemini false).1.chat_histories =
                  cm.chat_histories := by simp [switch_model, hm]
              rw [this]
              exact hInv
      | gpt4 =>
          have : (switch_model cm id AIModel.gpt4 seedOk).1.chat_histories =
              insertA cm.chat_histories id [systemTurn] := by simp [switch_model, hm]
          rw [this]
          exact histMapWF_insert hInv id _ histWF_system

theorem histMapWF_end {cm : ConnectionManager}
    (hInv : HistMapWF cm.chat_histories) (id : String) :
    HistMapWF (end_session cm id).chat_histories :=
  histMapWF_erase hInv id

theorem histMapWF_of_reachable {cm : ConnectionManager} (hre : Reachable cm) :
    HistMapWF cm.chat_histories := by
  induction hre with
  | init => intro id h hl; cases hl
  | create cm id m seedOk hre hfresh ih => exact histMapWF_create ih id m seedOk
  | send cm id msg az gm hre ih => exact histMapWF_send ih id (pyStrip msg) az gm
  | switch cm id m seedOk hre ih => exact histMapWF_switch ih id m seedOk
  | ended cm id hre ih => exact histMapWF_end ih id

/-! ### Concrete states used by witnesses and counterexamples -/

/-- The store after creating one GPT-4 session with id "c1". -/
def cmGpt4 : ConnectionManager :=
  (create_session ConnectionManager.empty "c1" AIModel.gpt4 true).1

/-- Store `cmGpt4` after one successful exchange (user "hi", assistant "ok"). -/
def cmGpt4Chat : ConnectionManager :=
  (get_message cmGpt4 "c1" "  hi  " (fun _ => some " ok ") (fun _ _ => none)).1

/-- The store after a gemini create for id "g1" whose seeding send failed:
"g1" is recorded as gemini but no handle was stored. -/
def cmGemFail : ConnectionManager :=
  (create_session ConnectionManager.empty "g1" AIModel.gemini false).1

/-! ### Claims -/

/-- C1 counterexample: on the empty store the id "nobody" is unknown, yet
POST /message succeeds under the gpt4 default when the provider succeeds —
it does not fail with SessionNotFound/400. -/
theorem c1_unknown_id_send_succeeds :
    lookupA ConnectionManager.empty.client_models "nobody" = none ∧
    (get_message ConnectionManager.empty "nobody" "hi" (fun _ => some "hello")
      (fun _ _ => none)).2 = Except.ok ("hello", AIModel.gpt4) :=
  ⟨rfl, by decide⟩

/-- C1 (amended): for every reachable store and every client_id absent from
it, get_ai_response (POST /message) never fails with the 400
SessionNotFound error: the model defaults to gpt4 and the call succeeds
with the provider reply on the fresh default history when the provider
succeeds, and fails with the uniform 500 error when it fails. -/
theorem c1_amended_unknown_id_never_bad_request (cm : ConnectionManager)
    (id msg : String) (az : List Turn → Option String)
    (gm : GeminiChat → String → Option String)
    (hre : Reachable cm) (hunk : lookupA cm.client_models id = none) :
    (get_message cm id msg az gm).2 ≠ Except.error ErrKind.badRequest ∧
    (get_message cm id msg az gm).2 =
      (match az [systemTurn, Turn.mk "user" (pyStrip msg)] with
       | none => Except.error ErrKind.internal
       | some content => Except.ok (pyStrip content, AIModel.gpt4)) := by
  have hch := (storeInvW_unknown (storeInvW_of_reachable hre) hunk).1
  have hgmsg : get_message cm id msg az gm =
      get_ai_response cm id (pyStrip msg) az gm := rfl
  have heq := get_ai_response_nohist cm id (pyStrip msg) az gm
    (by rw [hunk]; rfl) hch
  rw [hgmsg, heq]
  refine ⟨?_, rfl⟩
  cases az [systemTurn, Turn.mk "user" (pyStrip msg)] <;> simp

theorem c1_amended_unknown_id_never_bad_request_witness :
    (get_message ConnectionManager.empty "nobody" "hi" (fun _ => some "hello")
      (fun _ _ => none)).2 ≠ Except.error ErrKind.badRequest ∧
    (get_message ConnectionManager.empty "nobody" "hi" (fun _ => some "hello")
      (fun _ _ => none)).2 =
      (match (fun (_ : List Turn) => some "hello") [systemTurn, Turn.mk "user" (pyStrip "hi")] with
       | none => Except.error ErrKind.internal
       | some content => Except.ok (pyStrip content, AIModel.gpt4)) :=
  c1_amended_unknown_id_never_bad_request ConnectionManager.empty "nobody" "hi"
    (fun _ => some "hello") (fun _ _ => none) Reachable.init rfl

/-- C2 counterexample: in the one-gpt4-session state, a failing provider
call surfaces 500 but the stored history is not what it was before the
call: the user turn has been appended and remains. -/
theorem c2_failed_send_mutates_history :
    (get_message cmGpt4 "c1" "hello" (fun _ => none) (fun _ _ => none)).2 =
      Except.error ErrKind.internal ∧
    (get_message cmGpt4 "c1" "hello" (fun _ => none) (fun _ _ => none)).1 ≠ cmGpt4 ∧
    lookupA (get_message cmGpt4 "c1" "hello" (fun _ => none)
      (fun _ _ => none)).1.chat_histories "c1" =
      some [systemTurn, Turn.mk "user" "hello"] :=
  ⟨by decide, by decide, by decide⟩

/-- C2 (amended): on provider failure get_ai_response surfaces the uniform
500 error; for a gemini session the store is exactly as before the call,
but for a gpt4 session the user turn (trimmed message) has already been
appended to the stored history and remains, so a retry with the same
message appends a second copy of the user turn; the other two maps are
unchanged. -/
theorem c2_amended_failed_send (cm : ConnectionManager) (id msg : String)
    (m : AIModel) (hm : lookupA cm.client_models id = some m) :
    (get_message cm id msg (fun _ => none) (fun _ _ => none)).2 =
      Except.error ErrKind.internal ∧
    (match m with
     | AIModel.gemini =>
         (get_message cm id msg (fun _ => none) (fun _ _ => none)).1 = cm
     | AIModel.gpt4 =>
         (get_message cm id msg (fun _ => none) (fun _ _ => none)).1.gemini_chats =
           cm.gemini_chats ∧
         (get_message cm id msg (fun _ => none) (fun _ _ => none)).1.client_models =
           cm.client_models ∧
         lookupA (get_message cm id msg (fun _ => none)
           (fun _ _ => none)).1.chat_histories id =
           (lookupA cm.chat_histories id).map
             (fun h => h ++ [Turn.mk "user" (pyStrip msg)])) := by
  have hgmsg : get_message cm id msg (fun _ => none) (fun _ _ => none) =
      get_ai_response cm id (pyStrip msg) (fun _ => none) (fun _ _ => none) := rfl
  cases m with
  | gemini =>
      cases hgc : lookupA cm.gemini_chats id with
      | none =>
          rw [hgmsg, get_ai_response_gemini_nochat cm id (pyStrip msg) _ _ hm hgc]
          exact ⟨rfl, rfl⟩
      | some chat =>
          rw [hgmsg, get_ai_response_gemini cm id (pyStrip msg) _ _ chat hm hgc]
          exact ⟨rfl, rfl⟩
  | gpt4 =>
      cases hst : lookupA cm.chat_histories id with
      | none =>
          rw [hgmsg, get_ai_response_nohist cm id (pyStrip msg) _ _
            (by rw [hm]; rfl) hst]
          exact ⟨rfl, rfl, rfl, by simp [hst]⟩
      | some h =>
          rw [hgmsg, get_ai_response_hist cm id (pyStrip msg) _ _ h
            (by rw [hm]; rfl) hst]
          exact ⟨rfl, rfl, rfl, by simp [hst, lookupA_insertA_self]⟩

theorem c2_amended_failed_send_witness :
    (get_message cmGpt4 "c1" "hello" (fun _ => none) (fun _ _ => none)).2 =
      Except.error ErrKind.internal ∧
    ((get_message cmGpt4 "c1" "hello" (fun _ => none) (fun _ _ => none)).1.gemini_chats =
       cmGpt4.gemini_chats ∧
     (get_message cmGpt4 "c1" "hello" (fun _ => none) (fun _ _ => none)).1.client_models =
       cmGpt4.client_models ∧
     lookupA (get_message cmGpt4 "c1" "hello" (fun _ => none)
       (fun _ _ => none)).1.chat_histories "c1" =
       (lookupA cmGpt4.chat_histories "c1").map
         (fun h => h ++ [Turn.mk "user" (pyStrip "hello")])) :=
  c2_amended_failed_send cmGpt4 "c1" "hello" AIModel.gpt4 (by decide)

/-- C3: in every reachable store, every stored replay history begins with
exactly one system turn carrying the persona prompt, and no later turn has
role system. -/
theorem c3_history_single_system_turn (cm : ConnectionManager)
    (hre : Reachable cm) (id : String) (h : List Turn)
    (hl : lookupA cm.chat_histories id = some h) :
    historyWellFormed h = true :=
  histWF_bool (histMapWF_of_reachable hre id h hl)

theorem c3_history_single_system_turn_witness :
    historyWellFormed [systemTurn, Turn.mk "user" "hi", Turn.mk "assistant" "ok"] = true :=
  c3_history_single_system_turn cmGpt4Chat
    (Reachable.send cmGpt4 "c1" "  hi  " (fun _ => some " ok ") (fun _ _ => none)
      (Reachable.create ConnectionManager.empty "c1" AIModel.gpt4 true
        Reachable.init rfl))
    "c1" [systemTurn, Turn.mk "user" "hi", Turn.mk "assistant" "ok"] (by decide)

/-- C4 counterexample: in a reachable state with a gpt4 session "c1"
holding a three-turn history, a switch to gemini whose seeding send fails
surfaces 500 and discards nothing: the old history survives untouched while
the recorded model has already been reassigned to gemini — refuting the
claimed unconditional destructive reset. -/
theorem c4_failed_seed_not_destructive :
    Reachable cmGpt4Chat ∧
    (switch_model cmGpt4Chat "c1" AIModel.gemini false).2 =
      Except.error ErrKind.internal ∧
    lookupA (switch_model cmGpt4Chat "c1" AIModel.gemini false).1.chat_histories "c1" =
      some [systemTurn, Turn.mk "user" "hi", Turn.mk "assistant" "ok"] ∧
    lookupA (switch_model cmGpt4Chat "c1" AIModel.gemini false).1.client_models "c1" =
      some AIModel.gemini :=
  ⟨Reachable.send cmGpt4 "c1" "  hi  " (fun _ => some " ok ") (fun _ _ => none)
     (Reachable.create ConnectionManager.empty "c1" AIModel.gpt4 true
       Reachable.init rfl),
   by decide, by decide, by decide⟩

/-- C4 (amended): for every existing session, switching to gpt4 is an
unconditional destructive reset (history becomes exactly one fresh system
turn and any gemini handle is discarded, even when old = new, with no
fallible call involved); switching to gemini is destructive exactly when
the fresh handle's seeding succeeds (fresh seeded handle stored, any
history discarded, even when old = new), while on a seeding failure the
switch surfaces 500 and discards nothing — the old history and handle
survive, though the recorded model has already been set to gemini. -/
theorem c4_amended_switch_model_destructive (cm : ConnectionManager) (id : String)
    (P : AIModel) (seedOk : Bool)
    (hm : (lookupA cm.client_models id).isSome = true) :
    match P with
    | AIModel.gpt4 =>
        (switch_model cm id P seedOk).2 = Except.ok AIModel.gpt4 ∧
        lookupA (switch_model cm id P seedOk).1.chat_histories id = some [systemTurn] ∧
        lookupA (switch_model cm id P seedOk).1.gemini_chats id = none
    | AIModel.gemini =>
        if seedOk then
          (switch_model cm id P seedOk).2 = Except.ok AIModel.gemini ∧
          lookupA (switch_model cm id P seedOk).1.gemini_chats id =
            some freshGeminiChat ∧
          lookupA (switch_model cm id P seedOk).1.chat_histories id = none
        else
          (switch_model cm id P seedOk).2 = Except.error ErrKind.internal ∧
          (switch_model cm id P seedOk).1.chat_histories = cm.chat_histories ∧
          (switch_model cm id P seedOk).1.gemini_chats = cm.gemini_chats ∧
          lookupA (switch_model cm id P seedOk).1.client_models id =
            some AIModel.gemini := by
  cases hm' : lookupA cm.client_models id with
  | none => rw [hm'] at hm; simp at hm
  | some old =>
      cases P with
      | gpt4 =>
          simp [switch_model, hm', lookupA_insertA_self, lookupA_eraseA_self]
      | gemini =>
          cases seedOk with
          | true =>
              simp [switch_model, hm', lookupA_insertA_self, lookupA_eraseA_self]
          | false =>
              simp [switch_model, hm', lookupA_insertA_self]

theorem c4_amended_switch_model_destructive_witness :
    (switch_model cmGpt4Chat "c1" AIModel.gpt4 true).2 = Except.ok AIModel.gpt4 ∧
    lookupA (switch_model cmGpt4Chat "c1" AIModel.gpt4 true).1.chat_histories "c1" =
      some [systemTurn] ∧
    lookupA (switch_model cmGpt4Chat "c1" AIModel.gpt4 true).1.gemini_chats "c1" =
      none :=
  c4_amended_switch_model_destructive cmGpt4Chat "c1" AIModel.gpt4 true (by decide)

/-- C5 counterexample: a successful gemini create stores no turn-list
history for the new id, so "initializes the session's history to exactly
[system turn]" fails for the gemini provider. -/
theorem c5_create_gemini_stores_no_history :
    lookupA (create_session ConnectionManager.empty "id0" AIModel.gemini
      true).1.chat_histories "id0" = none ∧
    ¬ (lookupA (create_session ConnectionManager.empty "id0" AIModel.gemini
        true).1.chat_histories "id0" = some [systemTurn]) :=
  ⟨by decide, by decide⟩

/-- C5 (amended): create_session with a fresh (uuid4-generated) id records
the requested provider; for gpt4 it succeeds, returning (id, model), and
initializes the stored history to exactly [system turn]; for gemini no
history entry is ever stored — when the seeding send succeeds the call
returns (id, model) and records a freshly seeded handle, and when it fails
the call surfaces 500, leaving the recorded provider as a dangling entry
with no handle stored. -/
theorem c5_amended_create_session (cm : ConnectionManager) (id : String)
    (m : AIModel) (seedOk : Bool) (hre : Reachable cm)
    (hfresh : lookupA cm.client_models id = none) :
    lookupA (create_session cm id m seedOk).1.client_models id = some m ∧
    (match m with
     | AIModel.gpt4 =>
         (create_session cm id m seedOk).2 = Except.ok (id, m) ∧
         lookupA (create_session cm id m seedOk).1.chat_histories id =
           some [systemTurn] ∧
         lookupA (create_session cm id m seedOk).1.gemini_chats id = none
     | AIModel.gemini =>
         lookupA (create_session cm id m seedOk).1.chat_histories id = none ∧
         if seedOk then
           (create_session cm id m seedOk).2 = Except.ok (id, m) ∧
           lookupA (create_session cm id m seedOk).1.gemini_chats id =
             some freshGeminiChat
         else
           (create_session cm id m seedOk).2 = Except.error ErrKind.internal ∧
           lookupA (create_session cm id m seedOk).1.gemini_chats id = none) := by
  obtain ⟨hch, hgc⟩ := storeInvW_unknown (storeInvW_of_reachable hre) hfresh
  cases m with
  | gpt4 => simp [create_session, lookupA_insertA_self, hch, hgc]
  | gemini =>
      cases seedOk <;> simp [create_session, lookupA_insertA_self, hch, hgc]

theorem c5_amended_create_session_witness :
    lookupA (create_session ConnectionManager.empty "s1" AIModel.gpt4
      true).1.client_models "s1" = some AIModel.gpt4 ∧
    ((create_session ConnectionManager.empty "s1" AIModel.gpt4 true).2 =
       Except.ok ("s1", AIModel.gpt4) ∧
     lookupA (create_session ConnectionManager.empty "s1" AIModel.gpt4
       true).1.chat_histories "s1" = some [systemTurn] ∧
     lookupA (create_session ConnectionManager.empty "s1" AIModel.gpt4
       true).1.gemini_chats "s1" = none) :=
  c5_amended_create_session ConnectionManager.empty "s1" AIModel.gpt4 true
    Reachable.init rfl

/-- C6: after switch_model(id, P) succeeds, a get_message for id is
dispatched through P's path against P's freshly seeded state (the fresh
[system turn] history for gpt4, the fresh seeded handle for gemini) and
reports model P, while the other provider's per-id state is no longer in
the store. -/
theorem c6_switch_routes_to_new_provider (cm : ConnectionManager) (id : String)
    (P : AIModel) (seedOk : Bool) (msg t : String)
    (az : List Turn → Option String) (gm : GeminiChat → String → Option String)
    (hm : (lookupA cm.client_models id).isSome = true)
    (hok : (switch_model cm id P seedOk).2 = Except.ok P)
    (haz : az [systemTurn, Turn.mk "user" (pyStrip msg)] = some t)
    (hgm : gm freshGeminiChat (pyStrip msg) = some t) :
    lookupA (switch_model cm id P seedOk).1.client_models id = some P ∧
    (get_message (switch_model cm id P seedOk).1 id msg az gm).2 =
      Except.ok ((match P with
                  | AIModel.gpt4 => pyStrip t
                  | AIModel.gemini => t), P) ∧
    (match P with
     | AIModel.gpt4 =>
         lookupA (switch_model cm id P seedOk).1.gemini_chats id = none
     | AIModel.gemini =>
         lookupA (switch_model cm id P seedOk).1.chat_histories id = none) := by
  cases hm' : lookupA cm.client_models id with
  | none => rw [hm'] at hm; simp at hm
  | some old =>
    cases P with
    | gpt4 =>
        have hcm' : lookupA (switch_model cm id AIModel.gpt4 seedOk).1.client_models id =
            some AIModel.gpt4 := by
          simp [switch_model, hm', lookupA_insertA_self]
        have hst' : lookupA (switch_model cm id AIModel.gpt4 seedOk).1.chat_histories id =
            some [systemTurn] := by
          simp [switch_model, hm', lookupA_insertA_self]
        have hgc' : lookupA (switch_model cm id AIModel.gpt4 seedOk).1.gemini_chats id =
            none := by
          simp [switch_model, hm', lookupA_eraseA_self]
        refine ⟨hcm', ?_, hgc'⟩
        have hgmsg : get_message (switch_model cm id AIModel.gpt4 seedOk).1 id msg az gm =
            get_ai_response (switch_model cm id AIModel.gpt4 seedOk).1 id
              (pyStrip msg) az gm := rfl
        have heq := get_ai_response_hist (switch_model cm id AIModel.gpt4 seedOk).1 id
          (pyStrip msg) az gm [systemTurn] (by rw [hcm']; rfl) hst'
        rw [hgmsg, heq]
        simp [haz]
    | gemini =>
        cases seedOk with
        | false => simp [switch_model, hm'] at hok
        | true =>
            have hcm' : lookupA (switch_model cm id AIModel.gemini
                true).1.client_models id = some AIModel.gemini := by
              simp [switch_model, hm', lookupA_insertA_self]
            have hgc' : lookupA (switch_model cm id AIModel.gemini
                true).1.gemini_chats id = some freshGeminiChat := by
              simp [switch_model, hm', lookupA_insertA_self]
            have hch' : lookupA (switch_model cm id AIModel.gemini
                true).1.chat_histories id = none := by
              simp [switch_model, hm', lookupA_eraseA_self]
            refine ⟨hcm', ?_, hch'⟩
            have hgmsg : get_message (switch_model cm id AIModel.gemini true).1
                id msg az gm =
                get_ai_response (switch_model cm id AIModel.gemini true).1 id
                  (pyStrip msg) az gm := rfl
            have heq := get_ai_response_gemini (switch_model cm id AIModel.gemini
              true).1 id (pyStrip msg) az gm freshGeminiChat hcm' hgc'
            rw [hgmsg, heq]
            simp [hgm]

theorem c6_switch_routes_to_new_provider_witness :
    lookupA (switch_model cmGpt4 "c1" AIModel.gemini true).1.client_models "c1" =
      some AIModel.gemini ∧
    (get_message (switch_model cmGpt4 "c1" AIModel.gemini true).1 "c1" "hello"
      (fun _ => some "sure") (fun _ _ => some "sure")).2 =
      Except.ok ("sure", AIModel.gemini) ∧
    lookupA (switch_model cmGpt4 "c1" AIModel.gemini true).1.chat_histories "c1" =
      none :=
  c6_switch_routes_to_new_provider cmGpt4 "c1" AIModel.gemini true "hello" "sure"
    (fun _ => some "sure") (fun _ _ => some "sure") (by decide) (by decide) rfl rfl

/-- C7: a successful gpt4 send appends exactly the user turn (content = the
message with surrounding whitespace trimmed, and nothing else done to it)
and then the assistant turn to the stored history, in that order; the
provider receives exactly the old history plus that user turn, even when
the message is empty after trimming. -/
theorem c7_send_gpt4_appends_user_then_assistant (cm : ConnectionManager)
    (id msg t : String) (h : List Turn) (az : List Turn → Option String)
    (gm : GeminiChat → String → Option String)
    (hm : lookupA cm.client_models id = some AIModel.gpt4)
    (hst : lookupA cm.chat_histories id = some h)
    (haz : az (h ++ [Turn.mk "user" (pyStrip msg)]) = some t) :
    (get_message cm id msg az gm).2 = Except.ok (pyStrip t, AIModel.gpt4) ∧
    lookupA (get_message cm id msg az gm).1.chat_histories id =
      some (h ++ [Turn.mk "user" (pyStrip msg), Turn.mk "assistant" (pyStrip t)]) := by
  have hgmsg : get_message cm id msg az gm =
      get_ai_response cm id (pyStrip msg) az gm := rfl
  have heq := get_ai_response_hist cm id (pyStrip msg) az gm h (by rw [hm]; rfl) hst
  rw [hgmsg, heq, haz]
  exact ⟨rfl, by simp [lookupA_insertA_self]⟩

theorem c7_send_gpt4_appends_user_then_assistant_witness :
    (get_message cmGpt4 "c1" "   " (fun _ => some " Sure. ") (fun _ _ => none)).2 =
      Except.ok (pyStrip " Sure. ", AIModel.gpt4) ∧
    lookupA (get_message cmGpt4 "c1" "   " (fun _ => some " Sure. ")
      (fun _ _ => none)).1.chat_histories "c1" =
      some ([systemTurn] ++ [Turn.mk "user" (pyStrip "   "),
        Turn.mk "assistant" (pyStrip " Sure. ")]) :=
  c7_send_gpt4_appends_user_then_assistant cmGpt4 "c1" "   " " Sure. " [systemTurn]
    (fun _ => some " Sure. ") (fun _ _ => none) (by decide) (by decide) rfl

/-- C8: end_session removes all state for the id from all three maps, never
fails, and is idempotent: a second call changes nothing. -/
theorem c8_end_session_idempotent (cm : ConnectionManager) (id : String) :
    end_session (end_session cm id) id = end_session cm id ∧
    lookupA (end_session cm id).chat_histories id = none ∧
    lookupA (end_session cm id).gemini_chats id = none ∧
    lookupA (end_session cm id).client_models id = none := by
  refine ⟨?_, lookupA_eraseA_self _ _, lookupA_eraseA_self _ _,
    lookupA_eraseA_self _ _⟩
  simp [end_session, eraseA_idem]

/-- Decidable per-id form of the store-shape invariant: presence in
chat_histories coincides with a recorded gpt4 model, presence in
gemini_chats with a recorded gemini model, and never both at once. -/
def storeConsistentAt (cm : ConnectionManager) (id : String) : Bool :=
  (decide (lookupA cm.client_models id = some AIModel.gpt4) ==
    (lookupA cm.chat_histories id).isSome) &&
  (decide (lookupA cm.client_models id = some AIModel.gemini) ==
    (lookupA cm.gemini_chats id).isSome) &&
  !((lookupA cm.chat_histories id).isSome && (lookupA cm.gemini_chats id).isSome)

/-- C9 counterexample: the reachable state left by a gemini create whose
seeding send failed records "g1" as gemini with no gemini handle stored, so
the claimed "chat_histories iff gpt4, gemini_chats iff gemini" store
invariant is false after one operation. -/
theorem c9_failed_seed_breaks_store_consistency :
    Reachable cmGemFail ∧
    lookupA cmGemFail.client_models "g1" = some AIModel.gemini ∧
    lookupA cmGemFail.gemini_chats "g1" = none ∧
    storeConsistentAt cmGemFail "g1" = false :=
  ⟨Reachable.create ConnectionManager.empty "g1" AIModel.gemini false
     Reachable.init rfl,
   by decide, by decide, by decide⟩

/-- Decidable per-id form of the weak store-shape invariant that does hold:
a stored history or handle belongs to a recorded id, a handle only exists
under a recorded gemini model, a recorded gpt4 model always has a stored
history, and no id is in both provider maps at once. -/
def storeConsistentWeakAt (cm : ConnectionManager) (id : String) : Bool :=
  (!(lookupA cm.chat_histories id).isSome ||
    (lookupA cm.client_models id).isSome) &&
  (!(lookupA cm.gemini_chats id).isSome ||
    decide (lookupA cm.client_models id = some AIModel.gemini)) &&
  (!(decide (lookupA cm.client_models id = some AIModel.gpt4)) ||
    (lookupA cm.chat_histories id).isSome) &&
  !((lookupA cm.chat_histories id).isSome && (lookupA cm.gemini_chats id).isSome)

/-- C9 (amended): after any sequence of operations, every client_id present
in chat_histories or gemini_chats is also present in client_models, no
client_id is in both provider maps at once, every id with a gemini handle
has recorded model gemini, and every id recorded as gpt4 has a stored
history; but a failed gemini seeding (in create_session or switch_model)
can leave an id recorded as gemini with no handle — possibly with a
surviving chat_histories entry — so the map holding an id's state does not
always match its recorded model. -/
theorem c9_amended_store_weakly_consistent (cm : ConnectionManager)
    (hre : Reachable cm) (id : String) : storeConsistentWeakAt cm id = true := by
  obtain ⟨h1, h2, h3, h4⟩ := storeInvW_of_reachable hre id
  cases hch : lookupA cm.chat_histories id <;>
    cases hgc : lookupA cm.gemini_chats id <;>
      cases hcm : lookupA cm.client_models id <;>
        simp_all [storeConsistentWeakAt]

theorem c9_amended_store_weakly_consistent_witness :
    storeConsistentWeakAt cmGemFail "g1" = true :=
  c9_amended_store_weakly_consistent cmGemFail
    (Reachable.create ConnectionManager.empty "g1" AIModel.gemini false
      Reachable.init rfl) "g1"

/-- C10: for an id absent from client_models, get_message leaves the whole
store unchanged: the model defaults to gpt4, the fresh default one-turn
history built for the call is never stored (add_message is a no-op for such
an id), and the result depends only on the provider call on that default
history plus the trimmed user turn. -/
theorem c10_send_unknown_id_no_state (cm : ConnectionManager) (id msg : String)
    (az : List Turn → Option String) (gm : GeminiChat → String → Option String)
    (hre : Reachable cm) (hunk : lookupA cm.client_models id = none) :
    (get_message cm id msg az gm).1 = cm ∧
    (get_message cm id msg az gm).2 =
      (match az [systemTurn, Turn.mk "user" (pyStrip msg)] with
       | none => Except.error ErrKind.internal
       | some content => Except.ok (pyStrip content, AIModel.gpt4)) := by
  have hch := (storeInvW_unknown (storeInvW_of_reachable hre) hunk).1
  have hgmsg : get_message cm id msg az gm =
      get_ai_response cm id (pyStrip msg) az gm := rfl
  have heq := get_ai_response_nohist cm id (pyStrip msg) az gm
    (by rw [hunk]; rfl) hch
  rw [hgmsg, heq]
  exact ⟨rfl, rfl⟩

theorem c10_send_unknown_id_no_state_witness :
    (get_message ConnectionManager.empty "ghost" " hi " (fun _ => some " ok ")
      (fun _ _ => none)).1 = ConnectionManager.empty ∧
    (get_message ConnectionManager.empty "ghost" " hi " (fun _ => some " ok ")
      (fun _ _ => none)).2 =
      (match (fun (_ : List Turn) => some " ok ") [systemTurn, Turn.mk "user" (pyStrip " hi ")] with
       | none => Except.error ErrKind.internal
       | some content => Except.ok (pyStrip content, AIModel.gpt4)) :=
  c10_send_unknown_id_no_state ConnectionManager.empty "ghost" " hi "
    (fun _ => some " ok ") (fun _ _ => none) Reachable.init rfl

end TherapyBot
